import Mathlib

/-!
Shallow embedding of the Devin MCP server (`main.py`) and verification of its
specification.

The server exposes a `delegate` tool that creates a remote session via an HTTP
POST, then polls the session with HTTP GET until its status enters the terminal
set, streaming progress strings to a sink.  The embedding below models the HTTP
exchanges as explicit response values consumed in order, and the progress sink
as the list of emissions produced by a run.
-/

/-- Constant from `main.py`: base URL of the remote API. -/
def DEVIN_API_BASE : String := "https://api.devin.ai/v1"

/-- Constant from `main.py`: seconds between polls. -/
def POLL_INTERVAL_SECONDS : Nat := 10

/-- Constant from `main.py`: the statuses on which the poll loop returns. -/
def TERMINAL_STATES : List String := ["finished", "blocked", "expired"]

/-- One entry of the `messages` list of a session snapshot.  Both keys may be
absent from the JSON object, hence the `Option` fields; `main.py` reads them
with `msg.get("type", "message")` and `msg.get("message", "")`. -/
structure Msg where
  type : Option String
  message : Option String
deriving DecidableEq, Repr

/-- A parsed session snapshot (the JSON body of a 200 GET response).
`status_enum` and `messages` may be absent; `extra` models all remaining
fields of the JSON object, passed through verbatim by the code. -/
structure SessionData where
  status_enum : Option String
  messages : Option (List Msg)
  extra : List (String × String)
deriving DecidableEq, Repr

/-- An HTTP response to `GET /sessions/.../` as seen by the poll loop:
status code, raw text body, and the parsed JSON body (meaningful when the
status code is 200, which is the only case in which the code parses it). -/
structure GetResponse where
  status_code : Nat
  text : String
  body : SessionData
deriving DecidableEq, Repr

/-- An HTTP response to `POST /sessions`: status code, raw text body, and the
fields the code reads out of the parsed JSON body on success. -/
structure CreateResponse where
  status_code : Nat
  text : String
  session_id : String
  url : String
deriving DecidableEq, Repr

/-- One progress emission, tagged with which `progress.set_message` call site
of `main.py` produced it.  `render` recovers the exact string the code sends. -/
inductive Emission where
  | info (text : String)
  | status (value : String)
  | msgLine (tag : String) (display : String)
  | terminal (value : String)
deriving DecidableEq, Repr

/-- The exact string passed to `progress.set_message` for an emission,
matching the f-strings of `main.py`. -/
def Emission.render : Emission → String
  | Emission.info t => t
  | Emission.status v => "Status: " ++ v
  | Emission.msgLine t c => "[" ++ t ++ "] " ++ c
  | Emission.terminal v => "Session " ++ v

/-- `session_data.get("status_enum", "unknown")` from `main.py` line 127. -/
def currentStatusOf (s : SessionData) : String := s.status_enum.getD "unknown"

/-- `session_data.get("messages", [])` from `main.py` line 128. -/
def messagesOf (s : SessionData) : List Msg := s.messages.getD []

/-- The display text of one message: `msg_content[:200] + "..." if
len(msg_content) > 200 else msg_content` (`main.py` lines 139-143). -/
def displayOf (content : String) : String :=
  if content.length > 200 then content.take 200 ++ "..." else content

/-- The emission produced for one message entry (`main.py` lines 137-144). -/
def emitOfMsg (m : Msg) : Emission :=
  Emission.msgLine (m.type.getD "message") (displayOf (m.message.getD ""))

/-- Outcome of a `delegate` run: normal return of the final snapshot, a raised
`ToolError` carrying its message string, or exhaustion of the stubbed response
trace while the loop would keep polling. -/
inductive DelegateResult where
  | ok (session : SessionData)
  | err (message : String)
  | pending
deriving DecidableEq, Repr

/-- The poll loop of `delegate` (`main.py` lines 111-151), consuming one
stubbed GET response per iteration.  Returns the emissions of the loop and its
outcome.  The error branches mirror the code: 404 first, then 401, then any
status other than 200; on 200 the status change is reported, then new
messages, then the terminal check. -/
def pollLoop (session_id : String) (last_status : Option String)
    (last_message_count : Nat) : List GetResponse → List Emission × DelegateResult
  | [] => ([], DelegateResult.pending)
  | r :: rest =>
    if r.status_code = 404 then
      ([], DelegateResult.err
        ("Session \u0027" ++ session_id ++ "\u0027 not found during monitoring."))
    else if r.status_code = 401 then
      ([], DelegateResult.err "Invalid API key. Please check your DEVIN_API_KEY.")
    else if r.status_code ≠ 200 then
      ([], DelegateResult.err
        ("Devin API error (status " ++ toString r.status_code ++ "): " ++ r.text))
    else
      (
        (if some (currentStatusOf r.body) ≠ last_status then
          [Emission.status (currentStatusOf r.body)] else [])
        ++ (if (messagesOf r.body).length > last_message_count then
          ((messagesOf r.body).drop last_message_count).map emitOfMsg else [])
        ++ (if currentStatusOf r.body ∈ TERMINAL_STATES then
              [Emission.terminal (currentStatusOf r.body)]
            else
              (pollLoop session_id (some (currentStatusOf r.body))
                (if (messagesOf r.body).length > last_message_count then
                  (messagesOf r.body).length else last_message_count) rest).1),
        if currentStatusOf r.body ∈ TERMINAL_STATES then
          DelegateResult.ok r.body
        else
          (pollLoop session_id (some (currentStatusOf r.body))
            (if (messagesOf r.body).length > last_message_count then
              (messagesOf r.body).length else last_message_count) rest).2
      )

/-- The body of the `delegate` tool (`main.py` lines 63-151) after the API key
has been resolved: emit the creating message, classify the create response
(401, then 422, then any status other than 200), and on success enter the
poll loop with `last_message_count = 0`, `last_status = None`. -/
def delegate (create : CreateResponse) (polls : List GetResponse) :
    List Emission × DelegateResult :=
  if create.status_code = 401 then
    ([Emission.info "Creating Devin session..."],
      DelegateResult.err "Invalid API key. Please check your DEVIN_API_KEY.")
  else if create.status_code = 422 then
    ([Emission.info "Creating Devin session..."],
      DelegateResult.err ("Validation error: " ++ create.text))
  else if create.status_code ≠ 200 then
    ([Emission.info "Creating Devin session..."],
      DelegateResult.err
        ("Devin API error (status " ++ toString create.status_code ++ "): " ++ create.text))
  else
    (Emission.info "Creating Devin session..."
      :: Emission.info ("Session created: " ++ create.session_id)
      :: (pollLoop create.session_id none 0 polls).1,
     (pollLoop create.session_id none 0 polls).2)

/-- `get_api_key` (`main.py` lines 17-24): the environment variable is read;
`None` or the empty string raises a `ToolError`. -/
def get_api_key (env : Option String) : Except String String :=
  match env with
  | none => Except.error
      ("DEVIN_API_KEY environment variable is not set. "
        ++ "Please set it to your Devin API key (starts with \u0027apk_\u0027).")
  | some k =>
      if k = "" then
        Except.error
          ("DEVIN_API_KEY environment variable is not set. "
            ++ "Please set it to your Devin API key (starts with \u0027apk_\u0027).")
      else Except.ok k

/-- The full tool behaviour including the credential check that precedes any
emission (`main.py` line 63). -/
def delegateWithEnv (env : Option String) (create : CreateResponse)
    (polls : List GetResponse) : List Emission × DelegateResult :=
  match get_api_key env with
  | Except.error e => ([], DelegateResult.err e)
  | Except.ok _ => delegate create polls

/-- One JSON value as it occurs in the outgoing creation request body. -/
inductive JsonVal where
  | str (s : String)
  | int (n : Int)
  | bool (b : Bool)
  | strList (l : List String)
deriving DecidableEq, Repr

/-- The caller-facing parameters of the `delegate` tool (`main.py` lines
28-38), with the Python defaults. -/
structure DelegateParams where
  prompt : String
  title : Option String := none
  snapshot_id : Option String := none
  playbook_id : Option String := none
  tags : Option (List String) := none
  max_acu_limit : Option Int := none
  idempotent : Bool := false
  unlisted : Bool := false
  knowledge_ids : Option (List String) := none
  secret_ids : Option (List String) := none
deriving DecidableEq, Repr

/-- One `if x is not None: body[key] = x` statement of `main.py` lines 68-77
and 82-85: the key is present exactly when the optional value is supplied. -/
def optEntry {α : Type} (key : String) (f : α → JsonVal) :
    Option α → List (String × JsonVal)
  | some a => [(key, f a)]
  | none => []

/-- One `if flag: body[key] = flag` statement of `main.py` lines 78-81: the
key is present exactly when the boolean is true (Python truthiness). -/
def flagEntry (key : String) (b : Bool) : List (String × JsonVal) :=
  if b then [(key, JsonVal.bool b)] else []

/-- The outgoing POST body built by `delegate` (`main.py` lines 67-85): keys in
the order the code inserts them, each guarded exactly as in the code
(`is not None` for the optional values, truthiness for the two booleans). -/
def buildBody (p : DelegateParams) : List (String × JsonVal) :=
  [("prompt", JsonVal.str p.prompt)]
  ++ optEntry "title" JsonVal.str p.title
  ++ optEntry "snapshot_id" JsonVal.str p.snapshot_id
  ++ optEntry "playbook_id" JsonVal.str p.playbook_id
  ++ optEntry "tags" JsonVal.strList p.tags
  ++ optEntry "max_acu_limit" JsonVal.int p.max_acu_limit
  ++ flagEntry "idempotent" p.idempotent
  ++ flagEntry "unlisted" p.unlisted
  ++ optEntry "knowledge_ids" JsonVal.strList p.knowledge_ids
  ++ optEntry "secret_ids" JsonVal.strList p.secret_ids

/-- The keys present in a request body. -/
def bodyKeys (b : List (String × JsonVal)) : List String := b.map Prod.fst

/-- A tool registration at the host boundary: the externally callable name,
whether it runs as a long-running task, and its caller-facing parameters
(the `Progress` argument is a dependency injected by the host, not a caller
parameter). -/
structure ToolDecl where
  name : String
  task : Bool
  params : List String
deriving DecidableEq, Repr

/-- The single `@mcp.tool` registration of `main.py` (line 27). -/
def delegateTool : ToolDecl :=
  { name := "delegate", task := true,
    params := ["prompt", "title", "snapshot_id", "playbook_id", "tags",
      "max_acu_limit", "idempotent", "unlisted", "knowledge_ids", "secret_ids"] }

/-- All tools registered on the `mcp` server in `main.py`: `delegate` is the
only function carrying a tool decorator in the module. -/
def registeredTools : List ToolDecl := [delegateTool]

/-- The values of the status emissions of a trace, in order. -/
def statusEmissions (es : List Emission) : List String :=
  es.filterMap (fun e => match e with
    | Emission.status v => some v
    | _ => none)

/-- The message-line emissions of a trace, in order. -/
def msgEmissions (es : List Emission) : List Emission :=
  es.filter (fun e => match e with
    | Emission.msgLine _ _ => true
    | _ => false)

/-- Removal of consecutive duplicates relative to an initial previous value:
the statuses a change-detecting reporter announces. -/
def dedupConsecutive (last : Option String) : List String → List String
  | [] => []
  | s :: rest =>
    (if some s ≠ last then [s] else []) ++ dedupConsecutive (some s) rest

/-- The responses the poll loop actually consumes: everything up to and
including the first terminal 200 response (a non-200 response also stops the
loop, by raising). -/
def consumedPolls : List GetResponse → List GetResponse
  | [] => []
  | r :: rest =>
    if r.status_code = 200 then
      if currentStatusOf r.body ∈ TERMINAL_STATES then [r]
      else r :: consumedPolls rest
    else [r]

/-- The message list of the last snapshot the loop consumes, starting from a
list already seen; `M` if the trace is empty or aborts before a 200. -/
def finalMessages (M : List Msg) : List GetResponse → List Msg
  | [] => M
  | r :: rest =>
    if r.status_code = 200 then
      if currentStatusOf r.body ∈ TERMINAL_STATES then messagesOf r.body
      else finalMessages (messagesOf r.body) rest
    else M

/-- The message lists of the snapshots grow by appending, starting from an
already-seen list `M`: each snapshot list extends the previous one. -/
def GrowsFrom (M : List Msg) : List GetResponse → Prop
  | [] => True
  | r :: rest =>
    (messagesOf r.body).take M.length = M ∧ GrowsFrom (messagesOf r.body) rest

/-- Shorthand for a snapshot with a present status and message list and no
extra metadata, used for concrete test traces. -/
def snap (st : String) (ms : List Msg) : SessionData :=
  { status_enum := some st, messages := some ms, extra := [] }

/-- Shorthand for a 200 GET response with an empty raw text body, used for
concrete test traces. -/
def ok200 (s : SessionData) : GetResponse :=
  { status_code := 200, text := "", body := s }

/-- Shorthand for a non-200 GET response, used for concrete test traces. -/
def getErr (code : Nat) (text : String) : GetResponse :=
  { status_code := code, text := text,
    body := { status_enum := none, messages := none, extra := [] } }

/-! Helper lemmas about the embedding, shared by the claim theorems below. -/

/-- The conditional guarding the new-message emissions is redundant: when no
new messages exist the dropped suffix is empty anyway. -/
theorem msgEmit_norm (msgs : List Msg) (cnt : Nat) :
    (if msgs.length > cnt then (msgs.drop cnt).map emitOfMsg else [])
      = (msgs.drop cnt).map emitOfMsg := by
  by_cases h : msgs.length > cnt
  · simp [h]
  · have hle : msgs.length ≤ cnt := Nat.le_of_not_lt h
    simp [h, List.drop_eq_nil_of_le hle]

/-- The watermark update is a maximum. -/
theorem newCount_norm (n cnt : Nat) : (if n > cnt then n else cnt) = max n cnt := by
  by_cases h : n > cnt
  · simp [h, Nat.max_eq_left (Nat.le_of_lt h)]
  · simp [h, Nat.max_eq_right (Nat.le_of_not_lt h)]

/-- Normal form of one poll-loop iteration on a 200 response. -/
theorem pollLoop_cons_200 (sid : String) (last : Option String) (cnt : Nat)
    (r : GetResponse) (rest : List GetResponse) (h200 : r.status_code = 200) :
    pollLoop sid last cnt (r :: rest)
      = ((if some (currentStatusOf r.body) ≠ last then
            [Emission.status (currentStatusOf r.body)] else [])
          ++ ((messagesOf r.body).drop cnt).map emitOfMsg
          ++ (if currentStatusOf r.body ∈ TERMINAL_STATES then
                [Emission.terminal (currentStatusOf r.body)]
              else
                (pollLoop sid (some (currentStatusOf r.body))
                  (max (messagesOf r.body).length cnt) rest).1),
         if currentStatusOf r.body ∈ TERMINAL_STATES then
           DelegateResult.ok r.body
         else
           (pollLoop sid (some (currentStatusOf r.body))
             (max (messagesOf r.body).length cnt) rest).2) := by
  rw [pollLoop, h200]
  norm_num [msgEmit_norm, newCount_norm]

/-- Status emissions pass through list append. -/
theorem statusEmissions_append (a b : List Emission) :
    statusEmissions (a ++ b) = statusEmissions a ++ statusEmissions b := by
  simp [statusEmissions, List.filterMap_append]

/-- Message emissions contribute no status emissions. -/
theorem statusEmissions_map_emitOfMsg (l : List Msg) :
    statusEmissions (l.map emitOfMsg) = [] := by
  simp only [statusEmissions, List.filterMap_map]
  rw [List.filterMap_eq_nil_iff]
  intro m _
  rfl

/-- Message emissions pass through list append. -/
theorem msgEmissions_append (a b : List Emission) :
    msgEmissions (a ++ b) = msgEmissions a ++ msgEmissions b := by
  simp [msgEmissions, List.filter_append]

/-- Rendered message lines are all kept by the message filter. -/
theorem msgEmissions_map_emitOfMsg (l : List Msg) :
    msgEmissions (l.map emitOfMsg) = l.map emitOfMsg := by
  rw [msgEmissions, List.filter_eq_self]
  intro e he
  obtain ⟨m, _, rfl⟩ := List.mem_map.mp he
  rfl

/-- A status change emits no message line. -/
theorem msgEmissions_statusIte (c : Prop) [Decidable c] (v : String) :
    msgEmissions (if c then [Emission.status v] else []) = [] := by
  by_cases h : c <;> simp [h, msgEmissions]

/-- A terminal announcement emits no message line. -/
theorem msgEmissions_terminal (v : String) :
    msgEmissions [Emission.terminal v] = [] := rfl

/-- The status values reported by a conditional status change. -/
theorem statusEmissions_statusIte (c : Prop) [Decidable c] (v : String) :
    statusEmissions (if c then [Emission.status v] else [])
      = if c then [v] else [] := by
  by_cases h : c <;> simp [h, statusEmissions]

/-- A terminal announcement reports no status value. -/
theorem statusEmissions_terminal (v : String) :
    statusEmissions [Emission.terminal v] = [] := rfl

/-- When a terminal 200 response follows any 200 non-terminal responses, the
loop returns exactly the snapshot of that response, ignoring anything queued after
it. -/
theorem pollLoop_result_of_terminal (sid : String) :
    ∀ (pre : List GetResponse) (last : Option String) (cnt : Nat)
      (r : GetResponse) (post : List GetResponse),
      (∀ x ∈ pre, x.status_code = 200 ∧ currentStatusOf x.body ∉ TERMINAL_STATES) →
      r.status_code = 200 → currentStatusOf r.body ∈ TERMINAL_STATES →
      (pollLoop sid last cnt (pre ++ r :: post)).2 = DelegateResult.ok r.body := by
  intro pre
  induction pre with
  | nil =>
    intro last cnt r post _ h200 hterm
    rw [List.nil_append, pollLoop_cons_200 sid last cnt r post h200]
    dsimp only
    rw [if_pos hterm]
  | cons x xs ih =>
    intro last cnt r post hpre h200 hterm
    have hx := hpre x (List.mem_cons_self x xs)
    rw [List.cons_append, pollLoop_cons_200 sid last cnt x (xs ++ r :: post) hx.1]
    dsimp only
    rw [if_neg hx.2]
    exact ih _ _ r post (fun y hy => hpre y (List.mem_cons_of_mem x hy)) h200 hterm

/-- As long as every consumed status is non-terminal, the loop never returns:
it keeps polling until the stubbed trace runs out. -/
theorem pollLoop_pending_of_nonterminal (sid : String) :
    ∀ (rs : List GetResponse) (last : Option String) (cnt : Nat),
      (∀ x ∈ rs, x.status_code = 200 ∧ currentStatusOf x.body ∉ TERMINAL_STATES) →
      (pollLoop sid last cnt rs).2 = DelegateResult.pending := by
  intro rs
  induction rs with
  | nil => intro last cnt _; rfl
  | cons x xs ih =>
    intro last cnt h
    have hx := h x (List.mem_cons_self x xs)
    rw [pollLoop_cons_200 sid last cnt x xs hx.1]
    dsimp only
    rw [if_neg hx.2]
    exact ih _ _ (fun y hy => h y (List.mem_cons_of_mem x hy))

/-- The status values the loop reports are exactly the consumed statuses with
consecutive duplicates removed, relative to the previously reported status. -/
theorem statusEmissions_pollLoop (sid : String) :
    ∀ (rs : List GetResponse) (last : Option String) (cnt : Nat),
      (∀ x ∈ rs, x.status_code = 200) →
      statusEmissions (pollLoop sid last cnt rs).1
        = dedupConsecutive last
            ((consumedPolls rs).map fun r => currentStatusOf r.body) := by
  intro rs
  induction rs with
  | nil => intro last cnt _; rfl
  | cons x xs ih =>
    intro last cnt h
    have hx : x.status_code = 200 := h x (List.mem_cons_self x xs)
    rw [pollLoop_cons_200 sid last cnt x xs hx]
    by_cases hterm : currentStatusOf x.body ∈ TERMINAL_STATES
    · have hcons : consumedPolls (x :: xs) = [x] := by
        simp [consumedPolls, hx, hterm]
      rw [hcons]
      dsimp only
      rw [if_pos hterm, statusEmissions_append, statusEmissions_append,
        statusEmissions_statusIte, statusEmissions_map_emitOfMsg,
        statusEmissions_terminal]
      simp [dedupConsecutive]
    · have hcons : consumedPolls (x :: xs) = x :: consumedPolls xs := by
        simp [consumedPolls, hx, hterm]
      rw [hcons]
      dsimp only
      rw [if_neg hterm, statusEmissions_append, statusEmissions_append,
        statusEmissions_statusIte, statusEmissions_map_emitOfMsg,
        ih (some (currentStatusOf x.body)) (max (messagesOf x.body).length cnt)
          (fun y hy => h y (List.mem_cons_of_mem x hy))]
      simp [dedupConsecutive]

/-- Under the append-growth hypothesis, the already-seen messages stay a
prefix of the final message list. -/
theorem finalMessages_take (rs : List GetResponse) :
    ∀ (M : List Msg), (∀ x ∈ rs, x.status_code = 200) → GrowsFrom M rs →
      (finalMessages M rs).take M.length = M := by
  induction rs with
  | nil =>
    intro M _ _
    simp [finalMessages, List.take_length]
  | cons r rest ih =>
    intro M h hg
    have hr : r.status_code = 200 := h r (List.mem_cons_self r rest)
    obtain ⟨htake, hg2⟩ := hg
    by_cases hterm : currentStatusOf r.body ∈ TERMINAL_STATES
    · simp [finalMessages, hr, hterm, htake]
    · have hF := ih (messagesOf r.body) (fun y hy => h y (List.mem_cons_of_mem r hy)) hg2
      have hle : M.length ≤ (messagesOf r.body).length := by
        have hlen := congrArg List.length htake
        rw [List.length_take] at hlen
        omega
      have hfin : finalMessages M (r :: rest) = finalMessages (messagesOf r.body) rest := by
        simp [finalMessages, hr, hterm]
      rw [hfin]
      calc (finalMessages (messagesOf r.body) rest).take M.length
          = ((finalMessages (messagesOf r.body) rest).take
              (messagesOf r.body).length).take M.length := by
            rw [List.take_take, Nat.min_eq_left hle]
        _ = (messagesOf r.body).take M.length := by rw [hF]
        _ = M := htake

/-- Under the append-growth hypothesis, with the watermark equal to the number
of messages already seen, the message lines the loop emits are exactly the
messages appended beyond the watermark, in order. -/
theorem msgEmissions_pollLoop (sid : String) :
    ∀ (rs : List GetResponse) (last : Option String) (M : List Msg),
      (∀ x ∈ rs, x.status_code = 200) → GrowsFrom M rs →
      msgEmissions (pollLoop sid last M.length rs).1
        = ((finalMessages M rs).drop M.length).map emitOfMsg := by
  intro rs
  induction rs with
  | nil =>
    intro last M _ _
    simp [pollLoop, finalMessages, msgEmissions]
  | cons r rest ih =>
    intro last M h hg
    have hr : r.status_code = 200 := h r (List.mem_cons_self r rest)
    obtain ⟨htake, hg2⟩ := hg
    have hle : M.length ≤ (messagesOf r.body).length := by
      have hlen := congrArg List.length htake
      rw [List.length_take] at hlen
      omega
    have hMdecomp : messagesOf r.body = M ++ (messagesOf r.body).drop M.length := by
      conv_lhs => rw [← List.take_append_drop M.length (messagesOf r.body)]
      rw [htake]
    rw [pollLoop_cons_200 sid last M.length r rest hr]
    by_cases hterm : currentStatusOf r.body ∈ TERMINAL_STATES
    · have hfin : finalMessages M (r :: rest) = messagesOf r.body := by
        simp [finalMessages, hr, hterm]
      rw [hfin]
      dsimp only
      rw [if_pos hterm, msgEmissions_append, msgEmissions_append,
        msgEmissions_statusIte, msgEmissions_map_emitOfMsg, msgEmissions_terminal]
      simp only [List.nil_append, List.append_nil]
    · have hfin : finalMessages M (r :: rest) = finalMessages (messagesOf r.body) rest := by
        simp [finalMessages, hr, hterm]
      rw [hfin]
      dsimp only
      rw [if_neg hterm, msgEmissions_append, msgEmissions_append,
        msgEmissions_statusIte, msgEmissions_map_emitOfMsg,
        Nat.max_eq_left hle,
        ih (some (currentStatusOf r.body)) (messagesOf r.body)
          (fun y hy => h y (List.mem_cons_of_mem r hy)) hg2]
      simp only [List.nil_append]
      have hFdecomp : finalMessages (messagesOf r.body) rest
          = messagesOf r.body
            ++ (finalMessages (messagesOf r.body) rest).drop (messagesOf r.body).length := by
        conv_lhs => rw [← List.take_append_drop (messagesOf r.body).length
          (finalMessages (messagesOf r.body) rest)]
        rw [finalMessages_take rest (messagesOf r.body)
          (fun y hy => h y (List.mem_cons_of_mem r hy)) hg2]
      obtain ⟨F2, hF2⟩ : ∃ F2, finalMessages (messagesOf r.body) rest
          = messagesOf r.body ++ F2 := ⟨_, hFdecomp⟩
      obtain ⟨t, ht⟩ : ∃ t, messagesOf r.body = M ++ t := ⟨_, hMdecomp⟩
      rw [hF2, ht, List.drop_left, List.drop_left, List.append_assoc,
        List.drop_left, List.map_append]

/-- Which keys the outgoing creation body contains: `prompt` always, each
optional key exactly when supplied, each boolean key exactly when true. -/
theorem mem_bodyKeys_iff (p : DelegateParams) (k : String) :
    k ∈ bodyKeys (buildBody p) ↔
      k = "prompt"
      ∨ (k = "title" ∧ p.title.isSome)
      ∨ (k = "snapshot_id" ∧ p.snapshot_id.isSome)
      ∨ (k = "playbook_id" ∧ p.playbook_id.isSome)
      ∨ (k = "tags" ∧ p.tags.isSome)
      ∨ (k = "max_acu_limit" ∧ p.max_acu_limit.isSome)
      ∨ (k = "idempotent" ∧ p.idempotent = true)
      ∨ (k = "unlisted" ∧ p.unlisted = true)
      ∨ (k = "knowledge_ids" ∧ p.knowledge_ids.isSome)
      ∨ (k = "secret_ids" ∧ p.secret_ids.isSome) := by
  have h1 : ∀ {α : Type} (key : String) (f : α → JsonVal) (v : Option α),
      (k ∈ (optEntry key f v).map Prod.fst ↔ (k = key ∧ v.isSome)) := by
    intro α key f v
    cases v <;> simp [optEntry]
  have h2 : ∀ (key : String) (b : Bool),
      (k ∈ (flagEntry key b).map Prod.fst ↔ (k = key ∧ b = true)) := by
    intro key b
    cases b <;> simp [flagEntry]
  simp only [buildBody, bodyKeys, List.map_append, List.mem_append, h1, h2,
    List.map_cons, List.map_nil, List.mem_singleton]
  simp only [or_assoc]

/-- An explicitly supplied optional value always lands in the body with its
key and encoding. -/
theorem optEntry_mem {α : Type} (key : String) (f : α → JsonVal) (a : α) :
    (key, f a) ∈ optEntry key f (some a) := by
  simp [optEntry]

/-- Membership in the body distributes over its ten chunks. -/
theorem mem_buildBody_iff (p : DelegateParams) (kv : String × JsonVal) :
    kv ∈ buildBody p ↔
      kv = ("prompt", JsonVal.str p.prompt)
      ∨ kv ∈ optEntry "title" JsonVal.str p.title
      ∨ kv ∈ optEntry "snapshot_id" JsonVal.str p.snapshot_id
      ∨ kv ∈ optEntry "playbook_id" JsonVal.str p.playbook_id
      ∨ kv ∈ optEntry "tags" JsonVal.strList p.tags
      ∨ kv ∈ optEntry "max_acu_limit" JsonVal.int p.max_acu_limit
      ∨ kv ∈ flagEntry "idempotent" p.idempotent
      ∨ kv ∈ flagEntry "unlisted" p.unlisted
      ∨ kv ∈ optEntry "knowledge_ids" JsonVal.strList p.knowledge_ids
      ∨ kv ∈ optEntry "secret_ids" JsonVal.strList p.secret_ids := by
  simp [buildBody, List.mem_append, or_assoc]


/-! Claim theorems. -/

/-- C1: the poll loop returns normally exactly when the current status is a
member of the terminal set, and then returns the exact snapshot of the first
terminal 200 response; any other status value, the unrecognized ones included,
keeps the loop polling, and a snapshot with no status field is processed with
the literal status value "unknown". -/
theorem claim1_terminal_exit (sid : String) (last : Option String) (cnt : Nat)
    (pre post rs : List GetResponse) (r : GetResponse)
    (hpre : ∀ x ∈ pre, x.status_code = 200 ∧ currentStatusOf x.body ∉ TERMINAL_STATES)
    (h200 : r.status_code = 200)
    (hterm : currentStatusOf r.body ∈ TERMINAL_STATES)
    (hrs : ∀ x ∈ rs, x.status_code = 200 ∧ currentStatusOf x.body ∉ TERMINAL_STATES) :
    (pollLoop sid last cnt (pre ++ r :: post)).2 = DelegateResult.ok r.body
    ∧ (pollLoop sid last cnt rs).2 = DelegateResult.pending
    ∧ currentStatusOf { status_enum := none, messages := some [], extra := [] }
      = "unknown" :=
  ⟨pollLoop_result_of_terminal sid pre last cnt r post hpre h200 hterm,
   pollLoop_pending_of_nonterminal sid rs last cnt hrs,
   rfl⟩

/-- Witness for C1 at a concrete trace: one non-terminal poll followed by a
finished poll returns the finished snapshot, while an unrecognized status
alone leaves the loop polling. -/
theorem claim1_witness :
    (pollLoop "sess_123" none 0
        ([ok200 (snap "working" [])] ++ ok200 (snap "finished" []) :: [])).2
      = DelegateResult.ok (snap "finished" [])
    ∧ (pollLoop "sess_123" none 0 [ok200 (snap "strange_new_status" [])]).2
      = DelegateResult.pending
    ∧ currentStatusOf { status_enum := none, messages := some [], extra := [] }
      = "unknown" :=
  claim1_terminal_exit "sess_123" none 0
    [ok200 (snap "working" [])] [] [ok200 (snap "strange_new_status" [])]
    (ok200 (snap "finished" []))
    (by decide) (by decide) (by decide) (by decide)

/-- C5: a status equal to the previous poll status produces no emission and a
differing status produces exactly one emission — the reported status values
are the consumed statuses with consecutive duplicates removed; in particular
the trace working, working, finished reports exactly working then finished. -/
theorem claim5_status_reported_once_per_change (sid : String) (last : Option String)
    (cnt : Nat) (rs : List GetResponse)
    (h200 : ∀ x ∈ rs, x.status_code = 200) :
    statusEmissions (pollLoop sid last cnt rs).1
      = dedupConsecutive last ((consumedPolls rs).map fun r => currentStatusOf r.body)
    ∧ statusEmissions (pollLoop "sess_123" none 0
        [ok200 (snap "working" []), ok200 (snap "working" []),
         ok200 (snap "finished" [])]).1
      = ["working", "finished"] :=
  ⟨statusEmissions_pollLoop sid rs last cnt h200, by decide⟩

/-- Witness for C5: an unchanged status on the only poll is reported as the
deduplicated consumed statuses prescribe. -/
theorem claim5_witness :
    statusEmissions (pollLoop "s" (some "working") 0 [ok200 (snap "working" [])]).1
      = dedupConsecutive (some "working")
          ((consumedPolls [ok200 (snap "working" [])]).map
            fun r => currentStatusOf r.body) :=
  (claim5_status_reported_once_per_change "s" (some "working") 0
    [ok200 (snap "working" [])] (by decide)).1

/-- C6: when the message lists grow by appending, every message is emitted to
the sink exactly once and in original order — the concatenated message-line
emissions of the whole run are precisely the final message list rendered once
each; scenario D produces each of the two lines exactly once. -/
theorem claim6_messages_reported_once (sid : String) (last : Option String)
    (rs : List GetResponse)
    (h200 : ∀ x ∈ rs, x.status_code = 200) (hg : GrowsFrom [] rs) :
    msgEmissions (pollLoop sid last 0 rs).1 = (finalMessages [] rs).map emitOfMsg
    ∧ (pollLoop "sess_123" none 0
        [ok200 (snap "working"
           [{ type := some "user_message", message := some "Hello" }]),
         ok200 (snap "finished"
           [{ type := some "user_message", message := some "Hello" },
            { type := some "devin_message", message := some "Hi there!" }])]).1.map
        Emission.render
      = ["Status: working", "[user_message] Hello", "Status: finished",
         "[devin_message] Hi there!", "Session finished"] := by
  constructor
  · have h := msgEmissions_pollLoop sid rs last [] h200 hg
    simpa using h
  · decide

/-- Witness for C6: a single finished poll carrying one message emits that
message once. -/
theorem claim6_witness :
    msgEmissions (pollLoop "s" none 0
        [ok200 (snap "finished"
          [{ type := some "devin_message", message := some "done" }])]).1
      = (finalMessages []
          [ok200 (snap "finished"
            [{ type := some "devin_message", message := some "done" }])]).map
          emitOfMsg :=
  (claim6_messages_reported_once "s" none
    [ok200 (snap "finished"
      [{ type := some "devin_message", message := some "done" }])]
    (by decide) ⟨rfl, trivial⟩).1

/-- C9: within a poll cycle the emissions are ordered status change first,
then the newly appended message lines, then the terminal announcement; for a
session already finished on the first poll with no messages, the sink receives
exactly the four scenario A strings in order and delegate returns the
snapshot. -/
theorem claim9_emission_order (sid : String) (last : Option String) (cnt : Nat)
    (r : GetResponse) (rest : List GetResponse)
    (h200 : r.status_code = 200)
    (hterm : currentStatusOf r.body ∈ TERMINAL_STATES) :
    (pollLoop sid last cnt (r :: rest)).1
      = (if some (currentStatusOf r.body) ≠ last then
          [Emission.status (currentStatusOf r.body)] else [])
        ++ ((messagesOf r.body).drop cnt).map emitOfMsg
        ++ [Emission.terminal (currentStatusOf r.body)]
    ∧ (delegate { status_code := 200, text := "", session_id := "sess_123", url := "u" }
        [ok200 (snap "finished" [])]).1.map Emission.render
      = ["Creating Devin session...", "Session created: sess_123",
         "Status: finished", "Session finished"]
    ∧ (delegate { status_code := 200, text := "", session_id := "sess_123", url := "u" }
        [ok200 (snap "finished" [])]).2
      = DelegateResult.ok (snap "finished" []) := by
  refine ⟨?_, by decide, by decide⟩
  rw [pollLoop_cons_200 sid last cnt r rest h200]
  dsimp only
  rw [if_pos hterm]

/-- Witness for C9: a terminal first poll with a status change and one new
message emits the status line, then the message line, then the terminal
announcement. -/
theorem claim9_witness :
    (pollLoop "s" none 0
        [ok200 (snap "blocked"
          [{ type := some "devin_message", message := some "need help" }])]).1
      = [Emission.status "blocked",
         Emission.msgLine "devin_message" "need help",
         Emission.terminal "blocked"] := by
  have h := (claim9_emission_order "s" none 0
    (ok200 (snap "blocked"
      [{ type := some "devin_message", message := some "need help" }])) []
    (by decide) (by decide)).1
  rw [h]
  decide

/-- C4: the create response is classified by exact status code — 401 becomes
the credential error, 422 the validation error carrying the raw body, any
status other than 200 (401 and 422 aside) the remote error carrying status and
raw body, and exactly 200 proceeds into monitoring with the parsed body. -/
theorem claim4_create_classification (r : CreateResponse) (polls : List GetResponse) :
    (r.status_code = 401 → delegate r polls
      = ([Emission.info "Creating Devin session..."],
         DelegateResult.err "Invalid API key. Please check your DEVIN_API_KEY."))
    ∧ (r.status_code = 422 → delegate r polls
      = ([Emission.info "Creating Devin session..."],
         DelegateResult.err ("Validation error: " ++ r.text)))
    ∧ (r.status_code ≠ 200 → r.status_code ≠ 401 → r.status_code ≠ 422 →
        delegate r polls
      = ([Emission.info "Creating Devin session..."],
         DelegateResult.err
           ("Devin API error (status " ++ toString r.status_code ++ "): " ++ r.text)))
    ∧ (r.status_code = 200 → delegate r polls
      = (Emission.info "Creating Devin session..."
          :: Emission.info ("Session created: " ++ r.session_id)
          :: (pollLoop r.session_id none 0 polls).1,
         (pollLoop r.session_id none 0 polls).2)) := by
  refine ⟨fun h => ?_, fun h => ?_, fun h1 h2 h3 => ?_, fun h => ?_⟩
  · simp only [delegate]
    rw [if_pos h]
  · simp only [delegate]
    rw [if_neg (by omega), if_pos h]
  · simp only [delegate]
    rw [if_neg h2, if_neg h3, if_pos h1]
  · simp only [delegate]
    rw [if_neg (by omega), if_neg (by omega), if_neg (by omega)]

/-- C4 counterexample: HTTP 201 is a 2xx status, yet the code fails with the
generic remote error, because success requires status exactly 200. -/
theorem claim4_counterexample :
    delegate { status_code := 201, text := "created", session_id := "sess_1", url := "u" } []
      = ([Emission.info "Creating Devin session..."],
         DelegateResult.err "Devin API error (status 201): created") := by
  decide

/-- Witness for C4: a 401 create response fails with the credential message. -/
theorem claim4_witness :
    delegate { status_code := 401, text := "x", session_id := "", url := "" } []
      = ([Emission.info "Creating Devin session..."],
         DelegateResult.err "Invalid API key. Please check your DEVIN_API_KEY.") :=
  (claim4_create_classification
    { status_code := 401, text := "x", session_id := "", url := "" } []).1 rfl

/-- C8: during monitoring a 404 fails with the session-lost message carrying
the session id, a 401 fails exactly like the create-time credential error, and
any other non-2xx fails with the remote error carrying status and raw body;
the create-time 404 instead yields the generic remote error, a different
message from the monitoring one. -/
theorem claim8_poll_error_classification (sid : String) (last : Option String)
    (cnt : Nat) (r : GetResponse) (rest : List GetResponse) :
    (r.status_code = 404 → pollLoop sid last cnt (r :: rest)
      = ([], DelegateResult.err
          ("Session \u0027" ++ sid ++ "\u0027 not found during monitoring.")))
    ∧ (r.status_code = 401 → pollLoop sid last cnt (r :: rest)
      = ([], DelegateResult.err "Invalid API key. Please check your DEVIN_API_KEY."))
    ∧ ((r.status_code < 200 ∨ 300 ≤ r.status_code) → r.status_code ≠ 404 →
        r.status_code ≠ 401 → pollLoop sid last cnt (r :: rest)
      = ([], DelegateResult.err
          ("Devin API error (status " ++ toString r.status_code ++ "): " ++ r.text)))
    ∧ (delegate { status_code := 404, text := "nf", session_id := "", url := "" } []).2
      = DelegateResult.err "Devin API error (status 404): nf"
    ∧ DelegateResult.err "Devin API error (status 404): nf"
      ≠ DelegateResult.err ("Session \u0027sess_1\u0027 not found during monitoring.") := by
  refine ⟨fun h => ?_, fun h => ?_, fun h1 h2 h3 => ?_, by decide, by decide⟩
  · rw [pollLoop, if_pos h]
  · rw [pollLoop, if_neg (by omega), if_pos h]
  · rw [pollLoop, if_neg h2, if_neg h3, if_pos (by omega)]

/-- Witness for C8: a 404 on the first poll fails with the session-lost
message naming the session. -/
theorem claim8_witness :
    pollLoop "sess_9" none 0 [getErr 404 ""]
      = ([], DelegateResult.err
          ("Session \u0027sess_9\u0027 not found during monitoring.")) :=
  (claim8_poll_error_classification "sess_9" none 0 (getErr 404 "") []).1 rfl

/-- C2 counterexample: the host boundary registers a single tool; neither a
create_session nor a get_session operation is registered. -/
theorem claim2_counterexample :
    registeredTools.length = 1
    ∧ "create_session" ∉ registeredTools.map ToolDecl.name
    ∧ "get_session" ∉ registeredTools.map ToolDecl.name := by decide

/-- C2 (amended): the tool invocation boundary exposes exactly one callable
operation, the long-running task delegate with the ten caller parameters of
the creation request. -/
theorem claim2_single_tool :
    registeredTools.map ToolDecl.name = ["delegate"]
    ∧ delegateTool.task = true
    ∧ delegateTool.params
      = ["prompt", "title", "snapshot_id", "playbook_id", "tags",
         "max_acu_limit", "idempotent", "unlisted", "knowledge_ids",
         "secret_ids"] := by decide

/-- C3 (amended): every omitted optional field is entirely absent from the
outgoing body, and an explicitly supplied list — the empty list included — is
present under its key, so empty lists are distinguishable from omission; the
boolean keys appear exactly when the flag is true, so an explicit false is not
distinguishable from omission. -/
theorem claim3_present_only_fields (p : DelegateParams) :
    (p.title = none → "title" ∉ bodyKeys (buildBody p))
    ∧ (p.snapshot_id = none → "snapshot_id" ∉ bodyKeys (buildBody p))
    ∧ (p.playbook_id = none → "playbook_id" ∉ bodyKeys (buildBody p))
    ∧ (p.tags = none → "tags" ∉ bodyKeys (buildBody p))
    ∧ (p.max_acu_limit = none → "max_acu_limit" ∉ bodyKeys (buildBody p))
    ∧ (p.knowledge_ids = none → "knowledge_ids" ∉ bodyKeys (buildBody p))
    ∧ (p.secret_ids = none → "secret_ids" ∉ bodyKeys (buildBody p))
    ∧ (p.idempotent = false → "idempotent" ∉ bodyKeys (buildBody p))
    ∧ (p.unlisted = false → "unlisted" ∉ bodyKeys (buildBody p))
    ∧ (∀ ts, p.tags = some ts → ("tags", JsonVal.strList ts) ∈ buildBody p)
    ∧ (∀ ks, p.knowledge_ids = some ks →
        ("knowledge_ids", JsonVal.strList ks) ∈ buildBody p)
    ∧ (∀ ss, p.secret_ids = some ss →
        ("secret_ids", JsonVal.strList ss) ∈ buildBody p)
    ∧ (p.idempotent = true → ("idempotent", JsonVal.bool true) ∈ buildBody p)
    ∧ (p.unlisted = true → ("unlisted", JsonVal.bool true) ∈ buildBody p) := by
  refine ⟨fun h => ?_, fun h => ?_, fun h => ?_, fun h => ?_, fun h => ?_,
    fun h => ?_, fun h => ?_, fun h => ?_, fun h => ?_, fun ts h => ?_,
    fun ks h => ?_, fun ss h => ?_, fun h => ?_, fun h => ?_⟩
  · simp [mem_bodyKeys_iff, h]
  · simp [mem_bodyKeys_iff, h]
  · simp [mem_bodyKeys_iff, h]
  · simp [mem_bodyKeys_iff, h]
  · simp [mem_bodyKeys_iff, h]
  · simp [mem_bodyKeys_iff, h]
  · simp [mem_bodyKeys_iff, h]
  · simp [mem_bodyKeys_iff, h]
  · simp [mem_bodyKeys_iff, h]
  · simp [mem_buildBody_iff, h, optEntry]
  · simp [mem_buildBody_iff, h, optEntry]
  · simp [mem_buildBody_iff, h, optEntry]
  · simp [mem_buildBody_iff, h, flagEntry]
  · simp [mem_buildBody_iff, h, flagEntry]

/-- C3 counterexample: the caller-supplied explicit value false for
idempotent and unlisted produces a body without those keys, identical to the
body of a call that omits both parameters, so the explicit falsy value is not
distinguishable from omission in the outgoing request body. -/
theorem claim3_counterexample :
    buildBody { prompt := "p", idempotent := false, unlisted := false }
      = [("prompt", JsonVal.str "p")]
    ∧ buildBody { prompt := "p", idempotent := false, unlisted := false }
      = buildBody { prompt := "p" }
    ∧ "idempotent"
      ∉ bodyKeys (buildBody { prompt := "p", idempotent := false, unlisted := false }) := by
  decide

/-- Witness for C3: an omitted title never reaches the body, while an
explicitly empty tag list does. -/
theorem claim3_witness :
    "title" ∉ bodyKeys (buildBody { prompt := "p" })
    ∧ ("tags", JsonVal.strList []) ∈ buildBody { prompt := "p", tags := some [] } :=
  ⟨(claim3_present_only_fields { prompt := "p" }).1 rfl,
   (claim3_present_only_fields
     { prompt := "p", tags := some [] }).2.2.2.2.2.2.2.2.2.1 [] rfl⟩

/-- C7: the reported text of a message equals the original content when its
character length is at most 200, and equals the first 200 characters followed
by exactly "..." when it exceeds 200; the count is of characters, not bytes,
as a 70-character multibyte string of more than 200 bytes passes unmodified. -/
theorem claim7_truncation (c : String) :
    (c.length ≤ 200 → displayOf c = c)
    ∧ (c.length > 200 → displayOf c = c.take 200 ++ "...")
    ∧ displayOf (String.mk (List.replicate 70 '€')) = String.mk (List.replicate 70 '€')
    ∧ 200 < (String.mk (List.replicate 70 '€')).utf8ByteSize := by
  refine ⟨fun h => ?_, fun h => ?_, by decide, by decide⟩
  · simp only [displayOf]
    rw [if_neg (by omega)]
  · simp only [displayOf]
    rw [if_pos h]

set_option maxRecDepth 4000 in
/-- Witness for C7: a short string is reported unmodified and a 201-character
string is truncated to its first 200 characters plus the ellipsis. -/
theorem claim7_witness :
    displayOf "hi" = "hi"
    ∧ displayOf (String.mk (List.replicate 201 'a'))
      = (String.mk (List.replicate 201 'a')).take 200 ++ "..." :=
  ⟨(claim7_truncation "hi").1 (by decide),
   (claim7_truncation (String.mk (List.replicate 201 'a'))).2.1 (by decide)⟩

/-- C10: a 200 snapshot with no messages key is processed exactly like one
with an empty message list, a message with no type key is tagged "message",
and a message with no content key is reported with empty content — the poll
processing is total over these missing-key cases. -/
theorem claim10_missing_key_defaults (st : Option String)
    (extra : List (String × String)) (t : Option String) (c : String)
    (sid : String) (last : Option String) (cnt : Nat) (text : String)
    (rest : List GetResponse) :
    (pollLoop sid last cnt
        ({ status_code := 200, text := text,
           body := { status_enum := st, messages := none, extra := extra } } :: rest)).1
      = (pollLoop sid last cnt
        ({ status_code := 200, text := text,
           body := { status_enum := st, messages := some [], extra := extra } } :: rest)).1
    ∧ messagesOf { status_enum := st, messages := none, extra := extra } = []
    ∧ emitOfMsg { type := none, message := some c }
      = Emission.msgLine "message" (displayOf c)
    ∧ emitOfMsg { type := t, message := none }
      = Emission.msgLine (t.getD "message") "" := by
  refine ⟨?_, rfl, rfl, rfl⟩
  rw [pollLoop_cons_200 _ _ _ _ _ rfl, pollLoop_cons_200 _ _ _ _ _ rfl]
  simp [currentStatusOf, messagesOf]

/-- Witness for C10: a finished snapshot without a messages key produces the
same emissions as one with an empty list. -/
theorem claim10_witness :
    (pollLoop "s" none 0
        [{ status_code := 200, text := "",
           body := { status_enum := some "finished", messages := none, extra := [] } }]).1
      = (pollLoop "s" none 0
        [{ status_code := 200, text := "",
           body := { status_enum := some "finished", messages := some [], extra := [] } }]).1 :=
  (claim10_missing_key_defaults (some "finished") [] none "" "s" none 0 "" []).1
